import Mathlib

/-!
Verification of the schedule-operation request encoder of the omise-go SDK
(file operations/schedule.go): the MarshalJSON methods of CreateChargeSchedule
and CreateTransferSchedule, and the Op descriptors of the schedule operations.

The encoder is embedded shallowly: the JSON document produced by Go's
encoding/json for the intermediate `param` struct is modelled as a `Jv` value
whose object fields appear in Go struct-field order, with `omitempty` fields
dropped at their zero value, exactly as the struct tags in the source dictate.
Rendering a `Jv` to the final byte string is the function `renderJv`.
-/

namespace OmiseSched

/-- JSON values as produced by Go's encoding/json for the encoder's
intermediate structs: object fields are an ordered association list, in the
order encoding/json emits them (struct-field order). -/
inductive Jv : Type where
  | str (s : String)
  | int (n : Int)
  | rat (q : Rat)
  | arr (xs : List Jv)
  | obj (kvs : List (String × Jv))

/-- Keys of a JSON object, in emission order; nil for non-objects. -/
def Jv.keys : Jv → List String
  | .obj kvs => kvs.map Prod.fst
  | _ => []

/-- Field lookup in a JSON object (first occurrence); none for non-objects. -/
def Jv.lookup (k : String) : Jv → Option Jv
  | .obj kvs => (kvs.find? (fun kv => kv.fst = k)).map Prod.snd
  | _ => none

/-- Model of Go's float64 as far as encoding/json distinguishes values: a
finite value (a dyadic rational, held as a Rat) or one of the non-finite
values NaN / +Inf / -Inf, on which json.Marshal fails with an
UnsupportedValueError. -/
inductive F64 : Type where
  | finite (q : Rat)
  | nan
  | posInf
  | negInf
deriving DecidableEq

/-- A finite float64 is the zero value iff it is the number 0; the non-finite
values compare unequal to 0, so an omitempty field holding them is emitted. -/
def F64.isZero : F64 → Bool
  | .finite q => q = 0
  | _ => false

/-- Whether a float64 value is finite; json.Marshal fails on the others. -/
def F64.isFinite : F64 → Bool
  | .finite _ => true
  | _ => false

/-- Calendar date as extracted by time.Parse from a date-only string. -/
structure Date where
  year : Nat
  month : Nat
  day : Nat
deriving DecidableEq

/-- Zero value of Go's time.Time: January 1 of year 1. An empty EndDate
string leaves the param struct's end_date at this value. -/
def zeroDate : Date := ⟨1, 1, 1⟩

def isDigit (c : Char) : Bool := '0' ≤ c && c ≤ '9'

def digitVal (c : Char) : Nat := c.toNat - '0'.toNat

/-- Leap-year rule used by Go's time package. -/
def isLeap (y : Nat) : Bool := y % 4 == 0 && (y % 100 != 0 || y % 400 == 0)

/-- Number of days in a month, per Go's time.daysIn. -/
def daysIn (m y : Nat) : Nat :=
  if m == 2 then (if isLeap y then 29 else 28)
  else if m == 4 || m == 6 || m == 9 || m == 11 then 30
  else 31

/-- Embedding of Go's time.Parse with layout 2006-01-02: the input must be
exactly a 4-digit year, a dash, a 2-digit month, a dash and a 2-digit day
(zero-padded fixed widths, no surrounding text), with the month in 1..12 and
the day in range for that month and year; anything else is a parse error. -/
def parseDate (s : String) : Option Date :=
  match s.toList with
  | [y1, y2, y3, y4, h1, m1, m2, h2, d1, d2] =>
    if isDigit y1 && isDigit y2 && isDigit y3 && isDigit y4 && h1 == '-' &&
        isDigit m1 && isDigit m2 && h2 == '-' && isDigit d1 && isDigit d2 then
      let y := ((digitVal y1 * 10 + digitVal y2) * 10 + digitVal y3) * 10 + digitVal y4
      let m := digitVal m1 * 10 + digitVal m2
      let d := digitVal d1 * 10 + digitVal d2
      if 1 ≤ m && m ≤ 12 && 1 ≤ d && d ≤ daysIn m y then some ⟨y, m, d⟩ else none
    else none
  | _ => none

def pad2 (n : Nat) : String := if n < 10 then "0" ++ toString n else toString n

def pad4 (n : Nat) : String :=
  if n < 10 then "000" ++ toString n
  else if n < 100 then "00" ++ toString n
  else if n < 1000 then "0" ++ toString n
  else toString n

/-- Modelled from the spec: the omise.Date wire adapter (defined in the
repository outside the packaged sources) converts a calendar date to the
date-only wire string, with no time-of-day component and no timezone; the
wire format is the same YYYY-MM-DD shape the parser expects. -/
def dateWire (d : Date) : String :=
  pad4 d.year ++ "-" ++ pad2 d.month ++ "-" ++ pad2 d.day

/-- JSON encoding of an omise.Date: the wire date string. -/
def dateJv (d : Date) : Jv := Jv.str (dateWire d)

/-- CreateChargeSchedule request payload. Weekday and Period values are Go
string types, held here as String. DaysOfMonth is a Go slice of int whose
nil-ness is tested by the encoder, hence Option; none embeds the nil slice
and some [] embeds a non-nil empty slice. -/
structure CreateChargeSchedule where
  Every : Int
  Period : String
  StartDate : String
  EndDate : String
  Weekdays : List String
  DaysOfMonth : Option (List Int)
  WeekdayOfMonth : String
  Customer : String
  Amount : Int
  Currency : String
  Card : String
  Description : String
deriving DecidableEq

/-- CreateTransferSchedule request payload; PercentageOfBalance is a Go
float64, modelled by F64. -/
structure CreateTransferSchedule where
  Every : Int
  Period : String
  StartDate : String
  EndDate : String
  Weekdays : List String
  DaysOfMonth : Option (List Int)
  WeekdayOfMonth : String
  Recipient : String
  Amount : Int
  PercentageOfBalance : F64
deriving DecidableEq

/-- Encoding of the local `on` struct: every field carries omitempty, so an
empty weekday list, an empty days-of-month list and an empty
weekday-of-month string are each dropped. -/
def onJv (weekdays : List String) (daysOfMonth : List Int)
    (weekdayOfMonth : String) : Jv :=
  Jv.obj
    ((if weekdays = [] then [] else
        [("weekdays", Jv.arr (weekdays.map Jv.str))])
      ++ (if daysOfMonth = [] then [] else
        [("days_of_month", Jv.arr (daysOfMonth.map Jv.int))])
      ++ (if weekdayOfMonth = "" then [] else
        [("weekday_of_month", Jv.str weekdayOfMonth)]))

/-- The switch on p.Period shared by both MarshalJSON methods: first match
wins among week / month with non-nil days-of-month / month with non-empty
weekday-of-month; otherwise the On pointer stays nil and the `on` field is
omitted. -/
def selectOn (period : String) (weekdays : List String)
    (daysOfMonth : Option (List Int)) (weekdayOfMonth : String) : Option Jv :=
  if period = "week" then
    some (onJv weekdays [] "")
  else if period = "month" ∧ daysOfMonth ≠ none then
    some (onJv [] (daysOfMonth.getD []) "")
  else if period = "month" ∧ weekdayOfMonth ≠ "" then
    some (onJv [] [] weekdayOfMonth)
  else
    none

/-- Encoding of the local `charge` struct: customer and amount carry no
omitempty and are always emitted; currency, card and description carry
omitempty and are dropped at the empty string. -/
def chargeJv (customer : String) (amount : Int)
    (currency card description : String) : Jv :=
  Jv.obj
    ([("customer", Jv.str customer), ("amount", Jv.int amount)]
      ++ (if currency = "" then [] else [("currency", Jv.str currency)])
      ++ (if card = "" then [] else [("card", Jv.str card)])
      ++ (if description = "" then [] else [("description", Jv.str description)]))

/-- Encoding of the local `transfer` struct: recipient is always emitted;
amount and percentage_of_balance carry omitempty and are dropped at zero.
json.Marshal fails on a non-finite float64 (NaN or an infinity), which the
omitempty check does not drop since such values compare unequal to 0. -/
def transferJv (recipient : String) (amount : Int) (percentage : F64) :
    Except String Jv :=
  match percentage with
  | .finite q =>
    .ok (Jv.obj
      ([("recipient", Jv.str recipient)]
        ++ (if amount = 0 then [] else [("amount", Jv.int amount)])
        ++ (if q = 0 then [] else [("percentage_of_balance", Jv.rat q)])))
  | .nan => .error "json: unsupported value: NaN"
  | .posInf => .error "json: unsupported value: +Inf"
  | .negInf => .error "json: unsupported value: -Inf"

/-- The StartDate handling of both MarshalJSON methods: an empty string
leaves the param struct's StartDate pointer nil (field omitted); a non-empty
string must parse as a date or the method returns the parse error. -/
def parseStartDate (s : String) : Except String (Option Date) :=
  if s = "" then .ok none
  else
    match parseDate s with
    | none => .error ("parsing time " ++ s ++ " as 2006-01-02: cannot parse")
    | some d => .ok (some d)

/-- The EndDate handling of both MarshalJSON methods: an empty string leaves
the param struct's EndDate at the zero date; a non-empty string must parse
as a date or the method returns the parse error. -/
def parseEndDate (s : String) : Except String Date :=
  if s = "" then .ok zeroDate
  else
    match parseDate s with
    | none => .error ("parsing time " ++ s ++ " as 2006-01-02: cannot parse")
    | some d => .ok d

/-- Encoding of the top-level `param` struct: fields in struct order; the
start_date pointer carries omitempty (dropped when nil), end_date does not
and is always present, the on pointer carries omitempty (dropped when nil);
the action object is emitted last under the given key. -/
def paramJv (every : Int) (period : String) (startDate : Option Date)
    (endDate : Date) (onField : Option Jv) (actionKey : String)
    (action : Jv) : Jv :=
  Jv.obj
    ([("every", Jv.int every), ("period", Jv.str period)]
      ++ (match startDate with
        | none => []
        | some d => [("start_date", dateJv d)])
      ++ [("end_date", dateJv endDate)]
      ++ (match onField with
        | none => []
        | some o => [("on", o)])
      ++ [(actionKey, action)])

/-- Embedding of CreateChargeSchedule.MarshalJSON: parse the optional dates
(aborting with the error on failure), resolve the On selector from the
period switch, and marshal the param struct. The charge sub-struct contains
only strings and ints, so its encoding cannot fail. -/
def CreateChargeSchedule.MarshalJSON (req : CreateChargeSchedule) :
    Except String Jv :=
  match parseStartDate req.StartDate with
  | .error e => .error e
  | .ok sd =>
    match parseEndDate req.EndDate with
    | .error e => .error e
    | .ok ed =>
      .ok (paramJv req.Every req.Period sd ed
        (selectOn req.Period req.Weekdays req.DaysOfMonth req.WeekdayOfMonth)
        "charge"
        (chargeJv req.Customer req.Amount req.Currency req.Card
          req.Description))

/-- Embedding of CreateTransferSchedule.MarshalJSON: as for the charge
variant, except that the final json.Marshal of the param struct fails when
the transfer sub-struct holds a non-finite percentage-of-balance, in which
case the whole encoding returns that error and no output. -/
def CreateTransferSchedule.MarshalJSON (req : CreateTransferSchedule) :
    Except String Jv :=
  match parseStartDate req.StartDate with
  | .error e => .error e
  | .ok sd =>
    match parseEndDate req.EndDate with
    | .error e => .error e
    | .ok ed =>
      match transferJv req.Recipient req.Amount req.PercentageOfBalance with
      | .error e => .error e
      | .ok t =>
        .ok (paramJv req.Every req.Period sd ed
          (selectOn req.Period req.Weekdays req.DaysOfMonth
            req.WeekdayOfMonth)
          "transfer" t)

def hexDigit (n : Nat) : Char :=
  if n < 10 then Char.ofNat ('0'.toNat + n) else Char.ofNat ('a'.toNat + n - 10)

/-- Escaping of one character by Go's encoding/json string encoder (with the
default HTML escaping of angle brackets and ampersand). -/
def escChar (c : Char) : String :=
  if c = '"' then "\\\""
  else if c = '\\' then "\\\\"
  else if c = '\n' then "\\n"
  else if c = '\r' then "\\r"
  else if c = '\t' then "\\t"
  else if c = '<' then "\\u003c"
  else if c = '>' then "\\u003e"
  else if c = '&' then "\\u0026"
  else if c.toNat < 32 then
    "\\u00" ++ String.mk [hexDigit (c.toNat / 16), hexDigit (c.toNat % 16)]
  else String.mk [c]

/-- A JSON string literal: quoted, characters escaped. -/
def escString (s : String) : String :=
  "\"" ++ String.join (s.toList.map escChar) ++ "\""

def padZeros (s : String) (k : Nat) : String :=
  String.mk (List.replicate (k - s.length) '0') ++ s

/-- Decimal rendering of a finite float64 value held as a Rat: the shortest
terminating decimal expansion when one exists (which is the case for every
value a float64 can hold), matching Go's shortest-representation float
formatting on the decimal values that appear in this development. -/
def ratToString (q : Rat) : String :=
  if q.den = 1 then toString q.num
  else
    match (List.range 18).find? (fun k => (10 : Nat) ^ k % q.den = 0) with
    | some k =>
      let m := q.num.natAbs * ((10 : Nat) ^ k / q.den)
      (if q.num < 0 then "-" else "")
        ++ toString (m / 10 ^ k) ++ "." ++ padZeros (toString (m % 10 ^ k)) k
    | none => toString q.num ++ "/" ++ toString q.den

mutual

/-- Rendering of a JSON value to the output byte string, fields in order. -/
def renderJv : Jv → String
  | .str s => escString s
  | .int n => toString n
  | .rat q => ratToString q
  | .arr xs => "[" ++ renderArr xs ++ "]"
  | .obj kvs => "\x7b" ++ renderObj kvs ++ "\x7d"

def renderArr : List Jv → String
  | [] => ""
  | [x] => renderJv x
  | x :: y :: xs => renderJv x ++ "," ++ renderArr (y :: xs)

def renderObj : List (String × Jv) → String
  | [] => ""
  | [(k, v)] => escString k ++ ":" ++ renderJv v
  | (k, v) :: y :: kvs => escString k ++ ":" ++ renderJv v ++ "," ++ renderObj (y :: kvs)

end

/-- The byte string produced by marshaling a CreateChargeSchedule. -/
def CreateChargeSchedule.MarshalBytes (req : CreateChargeSchedule) :
    Except String String :=
  (req.MarshalJSON).map renderJv

/-- The byte string produced by marshaling a CreateTransferSchedule. -/
def CreateTransferSchedule.MarshalBytes (req : CreateTransferSchedule) :
    Except String String :=
  (req.MarshalJSON).map renderJv

/-- Endpoint selector of the operation descriptor (internal.API). -/
inductive Endpoint : Type where
  | api
deriving DecidableEq

/-- The generic HTTP-operation descriptor populated by the Op methods:
endpoint selector, method, path, query values (none embeds a nil url.Values
map, some [] an allocated empty one) and content type (empty when unset). -/
structure Op where
  Endpoint : Endpoint
  Method : String
  Path : String
  Values : Option (List (String × String))
  ContentType : String
deriving DecidableEq

/-- RetrieveSchedule request: one schedule identifier. -/
structure RetrieveSchedule where
  ScheduleID : String
deriving DecidableEq

/-- DestroySchedule request: one schedule identifier. -/
structure DestroySchedule where
  ScheduleID : String
deriving DecidableEq

/-- Embedding of CreateChargeSchedule.Op. -/
def CreateChargeSchedule.Op (_ : CreateChargeSchedule) : Op :=
  ⟨Endpoint.api, "POST", "/schedules", some [], "application/json"⟩

/-- Embedding of CreateTransferSchedule.Op. -/
def CreateTransferSchedule.Op (_ : CreateTransferSchedule) : Op :=
  ⟨Endpoint.api, "POST", "/schedules", some [], "application/json"⟩

/-- Embedding of RetrieveSchedule.Op: Values and ContentType are not set and
stay at their zero values. -/
def RetrieveSchedule.Op (req : RetrieveSchedule) : Op :=
  ⟨Endpoint.api, "GET", "/schedules/" ++ req.ScheduleID, none, ""⟩

/-- Embedding of DestroySchedule.Op: Values and ContentType are not set and
stay at their zero values. -/
def DestroySchedule.Op (req : DestroySchedule) : Op :=
  ⟨Endpoint.api, "DELETE", "/schedules/" ++ req.ScheduleID, none, ""⟩

/-- The JSON value of a successful encoding (a dummy empty object otherwise);
used to state closed facts about concrete successful encodings. -/
def okOr (x : Except String Jv) : Jv :=
  match x with
  | .ok j => j
  | .error _ => Jv.obj []

/-- The named top-level field of a successful encoding, if any. -/
def actionObj (key : String) (x : Except String Jv) : Option Jv :=
  match x with
  | .ok j => Jv.lookup key j
  | .error _ => none

/-!
Validation of the embedding against the marshaling test table of the
repository (operations/schedule_test.go): each request of the table encodes
to exactly the expected byte string.
-/

theorem goTestCharge1 :
    CreateChargeSchedule.MarshalBytes
      ⟨3, "day", "2017-05-15", "2018-05-15", [], none, "", "customer_id",
        100000, "", "", ""⟩ =
    Except.ok "\x7b\"every\":3,\"period\":\"day\",\"start_date\":\"2017-05-15\",\"end_date\":\"2018-05-15\",\"charge\":\x7b\"customer\":\"customer_id\",\"amount\":100000\x7d\x7d" := by
  rfl

theorem goTestCharge2 :
    CreateChargeSchedule.MarshalBytes
      ⟨3, "week", "2017-05-15", "2018-05-15", ["monday", "saturday"], none,
        "", "customer_id", 100000, "", "", ""⟩ =
    Except.ok "\x7b\"every\":3,\"period\":\"week\",\"start_date\":\"2017-05-15\",\"end_date\":\"2018-05-15\",\"on\":\x7b\"weekdays\":[\"monday\",\"saturday\"]\x7d,\"charge\":\x7b\"customer\":\"customer_id\",\"amount\":100000\x7d\x7d" := by
  rfl

theorem goTestCharge3 :
    CreateChargeSchedule.MarshalBytes
      ⟨3, "month", "2017-05-15", "2018-05-15", [], some [1, 15], "",
        "customer_id", 100000, "", "", ""⟩ =
    Except.ok "\x7b\"every\":3,\"period\":\"month\",\"start_date\":\"2017-05-15\",\"end_date\":\"2018-05-15\",\"on\":\x7b\"days_of_month\":[1,15]\x7d,\"charge\":\x7b\"customer\":\"customer_id\",\"amount\":100000\x7d\x7d" := by
  rfl

theorem goTestCharge4 :
    CreateChargeSchedule.MarshalBytes
      ⟨3, "month", "2017-05-15", "2018-05-15", [], none, "last_thursday",
        "customer_id", 100000, "", "", ""⟩ =
    Except.ok "\x7b\"every\":3,\"period\":\"month\",\"start_date\":\"2017-05-15\",\"end_date\":\"2018-05-15\",\"on\":\x7b\"weekday_of_month\":\"last_thursday\"\x7d,\"charge\":\x7b\"customer\":\"customer_id\",\"amount\":100000\x7d\x7d" := by
  rfl

theorem goTestTransfer1 :
    CreateTransferSchedule.MarshalBytes
      ⟨3, "day", "2017-05-15", "2018-05-15", [], none, "", "recipient_id",
        100000, F64.finite 0⟩ =
    Except.ok "\x7b\"every\":3,\"period\":\"day\",\"start_date\":\"2017-05-15\",\"end_date\":\"2018-05-15\",\"transfer\":\x7b\"recipient\":\"recipient_id\",\"amount\":100000\x7d\x7d" := by
  rfl

theorem goTestTransfer2 :
    CreateTransferSchedule.MarshalBytes
      ⟨3, "week", "2017-05-15", "2018-05-15", ["monday", "saturday"], none,
        "", "recipient_id", 0, F64.finite (mkRat 2035 100)⟩ =
    Except.ok "\x7b\"every\":3,\"period\":\"week\",\"start_date\":\"2017-05-15\",\"end_date\":\"2018-05-15\",\"on\":\x7b\"weekdays\":[\"monday\",\"saturday\"]\x7d,\"transfer\":\x7b\"recipient\":\"recipient_id\",\"percentage_of_balance\":20.35\x7d\x7d" := by
  rfl

theorem goTestTransfer3 :
    CreateTransferSchedule.MarshalBytes
      ⟨3, "month", "2017-05-15", "2018-05-15", [], some [1, 15], "",
        "recipient_id", 100000, F64.finite 0⟩ =
    Except.ok "\x7b\"every\":3,\"period\":\"month\",\"start_date\":\"2017-05-15\",\"end_date\":\"2018-05-15\",\"on\":\x7b\"days_of_month\":[1,15]\x7d,\"transfer\":\x7b\"recipient\":\"recipient_id\",\"amount\":100000\x7d\x7d" := by
  rfl

theorem goTestTransfer4 :
    CreateTransferSchedule.MarshalBytes
      ⟨3, "month", "2017-05-15", "2018-05-15", [], none, "last_thursday",
        "recipient_id", 0, F64.finite (mkRat 5055 100)⟩ =
    Except.ok "\x7b\"every\":3,\"period\":\"month\",\"start_date\":\"2017-05-15\",\"end_date\":\"2018-05-15\",\"on\":\x7b\"weekday_of_month\":\"last_thursday\"\x7d,\"transfer\":\x7b\"recipient\":\"recipient_id\",\"percentage_of_balance\":50.55\x7d\x7d" := by
  rfl

theorem parseDate_valid_example : parseDate "2017-05-15" = some ⟨2017, 5, 15⟩ := by
  rfl

theorem parseDate_invalid_example : parseDate "not-a-date" = none := by
  rfl

end OmiseSched

namespace OmiseSched

theorem chargeMarshal_ok_shape (r : CreateChargeSchedule) (j : Jv)
    (h : r.MarshalJSON = .ok j) :
    ∃ sd ed, parseStartDate r.StartDate = .ok sd ∧
      parseEndDate r.EndDate = .ok ed ∧
      j = paramJv r.Every r.Period sd ed
        (selectOn r.Period r.Weekdays r.DaysOfMonth r.WeekdayOfMonth)
        "charge"
        (chargeJv r.Customer r.Amount r.Currency r.Card r.Description) := by
  unfold CreateChargeSchedule.MarshalJSON at h
  cases hs : parseStartDate r.StartDate with
  | error e => rw [hs] at h; exact Except.noConfusion h
  | ok sd =>
    rw [hs] at h
    cases he : parseEndDate r.EndDate with
    | error e => rw [he] at h; exact Except.noConfusion h
    | ok ed =>
      rw [he] at h
      injection h with h
      exact ⟨sd, ed, rfl, rfl, h.symm⟩

theorem transferMarshal_ok_shape (r : CreateTransferSchedule) (j : Jv)
    (h : r.MarshalJSON = .ok j) :
    ∃ sd ed q, parseStartDate r.StartDate = .ok sd ∧
      parseEndDate r.EndDate = .ok ed ∧
      r.PercentageOfBalance = F64.finite q ∧
      j = paramJv r.Every r.Period sd ed
        (selectOn r.Period r.Weekdays r.DaysOfMonth r.WeekdayOfMonth)
        "transfer"
        (Jv.obj ([("recipient", Jv.str r.Recipient)]
          ++ (if r.Amount = 0 then [] else [("amount", Jv.int r.Amount)])
          ++ (if q = 0 then [] else [("percentage_of_balance", Jv.rat q)]))) := by
  unfold CreateTransferSchedule.MarshalJSON at h
  cases hs : parseStartDate r.StartDate with
  | error e => rw [hs] at h; exact Except.noConfusion h
  | ok sd =>
    rw [hs] at h
    cases he : parseEndDate r.EndDate with
    | error e => rw [he] at h; exact Except.noConfusion h
    | ok ed =>
      rw [he] at h
      cases hp : r.PercentageOfBalance with
      | finite q =>
        rw [hp] at h
        simp only [transferJv] at h
        injection h with h
        exact ⟨sd, ed, q, rfl, rfl, rfl, h.symm⟩
      | nan => rw [hp] at h; exact Except.noConfusion h
      | posInf => rw [hp] at h; exact Except.noConfusion h
      | negInf => rw [hp] at h; exact Except.noConfusion h

end OmiseSched

namespace OmiseSched

theorem paramJv_keys (e : Int) (p : String) (sd : Option Date) (ed : Date)
    (onf : Option Jv) (key : String) (a : Jv) :
    (paramJv e p sd ed onf key a).keys =
      ["every", "period"] ++ (if sd.isSome then ["start_date"] else [])
        ++ ["end_date"] ++ (if onf.isSome then ["on"] else []) ++ [key] := by
  cases sd <;> cases onf <;> simp [paramJv, Jv.keys]

theorem paramJv_lookup_on (e : Int) (p : String) (sd : Option Date)
    (ed : Date) (onf : Option Jv) (key : String) (a : Jv)
    (hk : ¬ key = "on") :
    Jv.lookup "on" (paramJv e p sd ed onf key a) = onf := by
  cases sd <;> cases onf <;> simp [paramJv, Jv.lookup, List.find?, hk]

theorem paramJv_lookup_end (e : Int) (p : String) (sd : Option Date)
    (ed : Date) (onf : Option Jv) (key : String) (a : Jv) :
    Jv.lookup "end_date" (paramJv e p sd ed onf key a) = some (dateJv ed) := by
  cases sd <;> cases onf <;> simp [paramJv, Jv.lookup, List.find?]

theorem paramJv_lookup_key (e : Int) (p : String) (sd : Option Date)
    (ed : Date) (onf : Option Jv) (key : String) (a : Jv)
    (h1 : ¬ key = "every") (h2 : ¬ key = "period")
    (h3 : ¬ key = "start_date") (h4 : ¬ key = "end_date")
    (h5 : ¬ key = "on") :
    Jv.lookup key (paramJv e p sd ed onf key a) = some a := by
  cases sd <;> cases onf <;>
    simp [paramJv, Jv.lookup, List.find?, Ne.symm h1, Ne.symm h2,
      Ne.symm h3, Ne.symm h4, Ne.symm h5]

theorem selectOn_day (w : List String) (dom : Option (List Int))
    (wom : String) : selectOn "day" w dom wom = none := by
  simp [selectOn]

theorem selectOn_week (w : List String) (dom : Option (List Int))
    (wom : String) : selectOn "week" w dom wom = some (onJv w [] "") := by
  simp [selectOn]

theorem selectOn_month_some (w : List String) (l : List Int) (wom : String) :
    selectOn "month" w (some l) wom = some (onJv [] l "") := by
  simp [selectOn]

theorem onJv_keys (w : List String) (dom : List Int) (wom : String) :
    (onJv w dom wom).keys =
      (if w = [] then [] else ["weekdays"])
        ++ (if dom = [] then [] else ["days_of_month"])
        ++ (if wom = "" then [] else ["weekday_of_month"]) := by
  simp only [onJv, Jv.keys]
  split_ifs <;> simp

theorem onJv_empty : onJv [] [] "" = Jv.obj [] := by
  simp [onJv]

theorem onJv_weekdays_lookup (w : List String) (hw : ¬ w = []) :
    Jv.lookup "weekdays" (onJv w [] "") = some (Jv.arr (w.map Jv.str)) := by
  simp [onJv, Jv.lookup, List.find?, hw]

theorem chargeJv_keys (c : String) (amt : Int) (cur card desc : String) :
    (chargeJv c amt cur card desc).keys =
      ["customer", "amount"]
        ++ (if cur = "" then [] else ["currency"])
        ++ (if card = "" then [] else ["card"])
        ++ (if desc = "" then [] else ["description"]) := by
  simp only [chargeJv, Jv.keys]
  split_ifs <;> simp

theorem parseStartDate_ok_none_iff (s : String) (sd : Option Date)
    (h : parseStartDate s = .ok sd) : sd = none ↔ s = "" := by
  unfold parseStartDate at h
  by_cases hs : s = ""
  · rw [if_pos hs] at h
    injection h with h
    simp [← h, hs]
  · rw [if_neg hs] at h
    cases hp : parseDate s with
    | none => rw [hp] at h; exact Except.noConfusion h
    | some d =>
      rw [hp] at h
      injection h with h
      simp [← h, hs]

theorem parseStartDate_isOk_false_iff (s : String) :
    (parseStartDate s).isOk = false ↔ ¬ s = "" ∧ parseDate s = none := by
  by_cases hs : s = ""
  · simp [parseStartDate, hs, Except.isOk, Except.toBool]
  · cases hp : parseDate s <;>
      simp [parseStartDate, hs, hp, Except.isOk, Except.toBool]

theorem parseEndDate_isOk_false_iff (s : String) :
    (parseEndDate s).isOk = false ↔ ¬ s = "" ∧ parseDate s = none := by
  by_cases hs : s = ""
  · simp [parseEndDate, hs, Except.isOk, Except.toBool]
  · cases hp : parseDate s <;>
      simp [parseEndDate, hs, hp, Except.isOk, Except.toBool]

theorem chargeMarshal_isOk (r : CreateChargeSchedule) :
    (r.MarshalJSON).isOk =
      ((parseStartDate r.StartDate).isOk && (parseEndDate r.EndDate).isOk) := by
  unfold CreateChargeSchedule.MarshalJSON
  cases parseStartDate r.StartDate <;> cases parseEndDate r.EndDate <;> rfl

theorem transferMarshal_isOk (r : CreateTransferSchedule) :
    (r.MarshalJSON).isOk =
      ((parseStartDate r.StartDate).isOk &&
        ((parseEndDate r.EndDate).isOk && r.PercentageOfBalance.isFinite)) := by
  unfold CreateTransferSchedule.MarshalJSON
  cases parseStartDate r.StartDate <;> cases parseEndDate r.EndDate <;>
    cases r.PercentageOfBalance <;>
    simp [transferJv, F64.isFinite, Except.isOk, Except.toBool]

end OmiseSched

namespace OmiseSched

/-- C1: for every CreateChargeSchedule or CreateTransferSchedule request with
period month in which both the days-of-month list (non-empty) and the
weekday-of-month string are set, a successful MarshalJSON produces an on
object that contains the days_of_month key and not the weekday_of_month key:
days-of-month takes precedence, first match wins. -/
theorem C1_daysOfMonth_precedence :
    (∀ (r : CreateChargeSchedule) (l : List Int) (j : Jv),
      r.Period = "month" → r.DaysOfMonth = some l → ¬ l = [] →
      ¬ r.WeekdayOfMonth = "" → r.MarshalJSON = .ok j →
      ∃ o, Jv.lookup "on" j = some o ∧ "days_of_month" ∈ o.keys ∧
        ¬ "weekday_of_month" ∈ o.keys)
    ∧ (∀ (r : CreateTransferSchedule) (l : List Int) (j : Jv),
      r.Period = "month" → r.DaysOfMonth = some l → ¬ l = [] →
      ¬ r.WeekdayOfMonth = "" → r.MarshalJSON = .ok j →
      ∃ o, Jv.lookup "on" j = some o ∧ "days_of_month" ∈ o.keys ∧
        ¬ "weekday_of_month" ∈ o.keys) := by
  constructor
  · intro r l j hp hd hl _hw h
    obtain ⟨sd, ed, _, _, hj⟩ := chargeMarshal_ok_shape r j h
    subst hj
    rw [hp, hd, selectOn_month_some]
    refine ⟨onJv [] l "", ?_, ?_, ?_⟩
    · exact paramJv_lookup_on _ _ _ _ _ _ _ (by decide)
    · rw [onJv_keys]; simp [hl]
    · rw [onJv_keys]; simp [hl]
  · intro r l j hp hd hl _hw h
    obtain ⟨sd, ed, q, _, _, _, hj⟩ := transferMarshal_ok_shape r j h
    subst hj
    rw [hp, hd, selectOn_month_some]
    refine ⟨onJv [] l "", ?_, ?_, ?_⟩
    · exact paramJv_lookup_on _ _ _ _ _ _ _ (by decide)
    · rw [onJv_keys]; simp [hl]
    · rw [onJv_keys]; simp [hl]

/-- C1 witness: concrete month-period requests with days-of-month [1, 15]
and weekday-of-month last_thursday encode with an on object holding
days_of_month only. -/
theorem C1_daysOfMonth_precedence_witness :
    (∃ o, Jv.lookup "on" (okOr (CreateChargeSchedule.MarshalJSON
        ⟨3, "month", "", "", [], some [1, 15], "last_thursday", "cust", 1,
          "", "", ""⟩)) = some o ∧
      "days_of_month" ∈ o.keys ∧ ¬ "weekday_of_month" ∈ o.keys)
    ∧ (∃ o, Jv.lookup "on" (okOr (CreateTransferSchedule.MarshalJSON
        ⟨3, "month", "", "", [], some [1, 15], "last_thursday", "rcp", 1,
          F64.finite 0⟩)) = some o ∧
      "days_of_month" ∈ o.keys ∧ ¬ "weekday_of_month" ∈ o.keys) :=
  ⟨C1_daysOfMonth_precedence.1
      ⟨3, "month", "", "", [], some [1, 15], "last_thursday", "cust", 1,
        "", "", ""⟩ [1, 15] _ rfl rfl (by decide) (by decide) rfl,
    C1_daysOfMonth_precedence.2
      ⟨3, "month", "", "", [], some [1, 15], "last_thursday", "rcp", 1,
        F64.finite 0⟩ [1, 15] _ rfl rfl (by decide) (by decide) rfl⟩

/-- C5: for every request with period day, the encoded JSON object contains
no on key, whatever the Weekdays, DaysOfMonth and WeekdayOfMonth fields
hold. -/
theorem C5_day_period_no_on_key :
    (∀ (r : CreateChargeSchedule) (j : Jv), r.Period = "day" →
      r.MarshalJSON = .ok j →
      ¬ "on" ∈ j.keys ∧ Jv.lookup "on" j = none)
    ∧ (∀ (r : CreateTransferSchedule) (j : Jv), r.Period = "day" →
      r.MarshalJSON = .ok j →
      ¬ "on" ∈ j.keys ∧ Jv.lookup "on" j = none) := by
  constructor
  · intro r j hp h
    obtain ⟨sd, ed, _, _, hj⟩ := chargeMarshal_ok_shape r j h
    subst hj
    rw [hp, selectOn_day]
    refine ⟨?_, paramJv_lookup_on _ _ _ _ _ _ _ (by decide)⟩
    rw [paramJv_keys]
    cases sd <;> simp
  · intro r j hp h
    obtain ⟨sd, ed, q, _, _, _, hj⟩ := transferMarshal_ok_shape r j h
    subst hj
    rw [hp, selectOn_day]
    refine ⟨?_, paramJv_lookup_on _ _ _ _ _ _ _ (by decide)⟩
    rw [paramJv_keys]
    cases sd <;> simp

/-- C5 witness: concrete day-period requests carrying every sub-selector
still encode without an on key. -/
theorem C5_day_period_no_on_key_witness :
    (¬ "on" ∈ (okOr (CreateChargeSchedule.MarshalJSON
        ⟨3, "day", "", "", ["monday"], some [1], "last_thursday", "cust", 1,
          "", "", ""⟩)).keys ∧
      Jv.lookup "on" (okOr (CreateChargeSchedule.MarshalJSON
        ⟨3, "day", "", "", ["monday"], some [1], "last_thursday", "cust", 1,
          "", "", ""⟩)) = none)
    ∧ (¬ "on" ∈ (okOr (CreateTransferSchedule.MarshalJSON
        ⟨3, "day", "", "", ["monday"], some [1], "last_thursday", "rcp", 1,
          F64.finite 0⟩)).keys ∧
      Jv.lookup "on" (okOr (CreateTransferSchedule.MarshalJSON
        ⟨3, "day", "", "", ["monday"], some [1], "last_thursday", "rcp", 1,
          F64.finite 0⟩)) = none) :=
  ⟨C5_day_period_no_on_key.1
      ⟨3, "day", "", "", ["monday"], some [1], "last_thursday", "cust", 1,
        "", "", ""⟩ _ rfl rfl,
    C5_day_period_no_on_key.2
      ⟨3, "day", "", "", ["monday"], some [1], "last_thursday", "rcp", 1,
        F64.finite 0⟩ _ rfl rfl⟩

/-- C10: with period month, a non-nil but empty DaysOfMonth list combined
with a non-empty WeekdayOfMonth produces the on key bound to the empty
object: days_of_month is omitted and weekday_of_month is shadowed. -/
theorem C10_nonnil_empty_daysOfMonth :
    (∀ (r : CreateChargeSchedule) (j : Jv), r.Period = "month" →
      r.DaysOfMonth = some [] → ¬ r.WeekdayOfMonth = "" →
      r.MarshalJSON = .ok j → Jv.lookup "on" j = some (Jv.obj []))
    ∧ (∀ (r : CreateTransferSchedule) (j : Jv), r.Period = "month" →
      r.DaysOfMonth = some [] → ¬ r.WeekdayOfMonth = "" →
      r.MarshalJSON = .ok j → Jv.lookup "on" j = some (Jv.obj [])) := by
  constructor
  · intro r j hp hd _hw h
    obtain ⟨sd, ed, _, _, hj⟩ := chargeMarshal_ok_shape r j h
    subst hj
    rw [hp, hd, selectOn_month_some, onJv_empty]
    exact paramJv_lookup_on _ _ _ _ _ _ _ (by decide)
  · intro r j hp hd _hw h
    obtain ⟨sd, ed, q, _, _, _, hj⟩ := transferMarshal_ok_shape r j h
    subst hj
    rw [hp, hd, selectOn_month_some, onJv_empty]
    exact paramJv_lookup_on _ _ _ _ _ _ _ (by decide)

/-- C10 witness: concrete requests with DaysOfMonth = some [] and a set
weekday-of-month encode with on bound to the empty object. -/
theorem C10_nonnil_empty_daysOfMonth_witness :
    Jv.lookup "on" (okOr (CreateChargeSchedule.MarshalJSON
        ⟨3, "month", "", "", [], some [], "last_thursday", "cust", 1,
          "", "", ""⟩)) = some (Jv.obj [])
    ∧ Jv.lookup "on" (okOr (CreateTransferSchedule.MarshalJSON
        ⟨3, "month", "", "", [], some [], "last_thursday", "rcp", 1,
          F64.finite 0⟩)) = some (Jv.obj []) :=
  ⟨C10_nonnil_empty_daysOfMonth.1
      ⟨3, "month", "", "", [], some [], "last_thursday", "cust", 1,
        "", "", ""⟩ _ rfl rfl (by decide) rfl,
    C10_nonnil_empty_daysOfMonth.2
      ⟨3, "month", "", "", [], some [], "last_thursday", "rcp", 1,
        F64.finite 0⟩ _ rfl rfl (by decide) rfl⟩

end OmiseSched

namespace OmiseSched

/-- C6: in every successful encoding, an empty StartDate leaves the
start_date key entirely absent, while the end_date key is always present and
an empty EndDate encodes as the zero-value date 0001-01-01. -/
theorem C6_start_omitted_end_always :
    (∀ (r : CreateChargeSchedule) (j : Jv), r.MarshalJSON = .ok j →
      (r.StartDate = "" → ¬ "start_date" ∈ j.keys)
      ∧ "end_date" ∈ j.keys
      ∧ (r.EndDate = "" → Jv.lookup "end_date" j = some (dateJv zeroDate)))
    ∧ (∀ (r : CreateTransferSchedule) (j : Jv), r.MarshalJSON = .ok j →
      (r.StartDate = "" → ¬ "start_date" ∈ j.keys)
      ∧ "end_date" ∈ j.keys
      ∧ (r.EndDate = "" → Jv.lookup "end_date" j = some (dateJv zeroDate))) := by
  constructor
  · intro r j h
    obtain ⟨sd, ed, hs, he, hj⟩ := chargeMarshal_ok_shape r j h
    subst hj
    refine ⟨?_, ?_, ?_⟩
    · intro h0
      have : sd = none := (parseStartDate_ok_none_iff _ _ hs).mpr h0
      subst this
      rw [paramJv_keys]
      simp
    · rw [paramJv_keys]
      cases sd <;> cases (selectOn r.Period r.Weekdays r.DaysOfMonth
        r.WeekdayOfMonth) <;> simp
    · intro h0
      rw [h0] at he
      simp only [parseEndDate, if_pos] at he
      injection he with he
      rw [paramJv_lookup_end, ← he]
  · intro r j h
    obtain ⟨sd, ed, q, hs, he, _, hj⟩ := transferMarshal_ok_shape r j h
    subst hj
    refine ⟨?_, ?_, ?_⟩
    · intro h0
      have : sd = none := (parseStartDate_ok_none_iff _ _ hs).mpr h0
      subst this
      rw [paramJv_keys]
      simp
    · rw [paramJv_keys]
      cases sd <;> cases (selectOn r.Period r.Weekdays r.DaysOfMonth
        r.WeekdayOfMonth) <;> simp
    · intro h0
      rw [h0] at he
      simp only [parseEndDate, if_pos] at he
      injection he with he
      rw [paramJv_lookup_end, ← he]

/-- C6 witness: concrete requests with empty StartDate and EndDate encode
without start_date and with end_date bound to the zero date. -/
theorem C6_start_omitted_end_always_witness :
    ((("" : String) = "" → ¬ "start_date" ∈ (okOr
        (CreateChargeSchedule.MarshalJSON
          ⟨3, "day", "", "", [], none, "", "cust", 1, "", "", ""⟩)).keys)
      ∧ "end_date" ∈ (okOr (CreateChargeSchedule.MarshalJSON
          ⟨3, "day", "", "", [], none, "", "cust", 1, "", "", ""⟩)).keys
      ∧ (("" : String) = "" → Jv.lookup "end_date" (okOr
          (CreateChargeSchedule.MarshalJSON
            ⟨3, "day", "", "", [], none, "", "cust", 1, "", "", ""⟩)) =
          some (dateJv zeroDate)))
    ∧ ((("" : String) = "" → ¬ "start_date" ∈ (okOr
        (CreateTransferSchedule.MarshalJSON
          ⟨3, "day", "", "", [], none, "", "rcp", 1, F64.finite 0⟩)).keys)
      ∧ "end_date" ∈ (okOr (CreateTransferSchedule.MarshalJSON
          ⟨3, "day", "", "", [], none, "", "rcp", 1, F64.finite 0⟩)).keys
      ∧ (("" : String) = "" → Jv.lookup "end_date" (okOr
          (CreateTransferSchedule.MarshalJSON
            ⟨3, "day", "", "", [], none, "", "rcp", 1, F64.finite 0⟩)) =
          some (dateJv zeroDate))) :=
  ⟨C6_start_omitted_end_always.1
      ⟨3, "day", "", "", [], none, "", "cust", 1, "", "", ""⟩ _ rfl,
    C6_start_omitted_end_always.2
      ⟨3, "day", "", "", [], none, "", "rcp", 1, F64.finite 0⟩ _ rfl⟩

/-- C8: in every successful encoding the top-level keys appear in the fixed
order every, period, start_date (present exactly when StartDate is
non-empty), end_date, on (present exactly when the period switch selects a
selector), then charge or transfer. -/
theorem C8_top_level_key_order :
    (∀ (r : CreateChargeSchedule) (j : Jv), r.MarshalJSON = .ok j →
      j.keys = ["every", "period"]
        ++ (if r.StartDate = "" then [] else ["start_date"])
        ++ ["end_date"]
        ++ (if (selectOn r.Period r.Weekdays r.DaysOfMonth
            r.WeekdayOfMonth).isSome then ["on"] else [])
        ++ ["charge"])
    ∧ (∀ (r : CreateTransferSchedule) (j : Jv), r.MarshalJSON = .ok j →
      j.keys = ["every", "period"]
        ++ (if r.StartDate = "" then [] else ["start_date"])
        ++ ["end_date"]
        ++ (if (selectOn r.Period r.Weekdays r.DaysOfMonth
            r.WeekdayOfMonth).isSome then ["on"] else [])
        ++ ["transfer"]) := by
  constructor
  · intro r j h
    obtain ⟨sd, ed, hs, _, hj⟩ := chargeMarshal_ok_shape r j h
    subst hj
    rw [paramJv_keys]
    have hiff := parseStartDate_ok_none_iff _ _ hs
    by_cases h0 : r.StartDate = ""
    · have : sd = none := hiff.mpr h0
      subst this
      simp [h0]
    · cases sd with
      | none => exact absurd (hiff.mp rfl) h0
      | some d => simp [h0]
  · intro r j h
    obtain ⟨sd, ed, q, hs, _, _, hj⟩ := transferMarshal_ok_shape r j h
    subst hj
    rw [paramJv_keys]
    have hiff := parseStartDate_ok_none_iff _ _ hs
    by_cases h0 : r.StartDate = ""
    · have : sd = none := hiff.mpr h0
      subst this
      simp [h0]
    · cases sd with
      | none => exact absurd (hiff.mp rfl) h0
      | some d => simp [h0]

/-- C8 witness: a concrete week-period charge request with a start date and
a concrete day-period transfer request without one show the stated key
orders. -/
theorem C8_top_level_key_order_witness :
    (okOr (CreateChargeSchedule.MarshalJSON
      ⟨3, "week", "2017-05-15", "2018-05-15", ["monday"], none, "", "cust",
        1, "", "", ""⟩)).keys = ["every", "period"]
      ++ (if ("2017-05-15" : String) = "" then [] else ["start_date"])
      ++ ["end_date"]
      ++ (if (selectOn "week" ["monday"] none "").isSome then ["on"] else [])
      ++ ["charge"]
    ∧ (okOr (CreateTransferSchedule.MarshalJSON
      ⟨3, "day", "", "", [], none, "", "rcp", 1, F64.finite 0⟩)).keys =
      ["every", "period"]
      ++ (if ("" : String) = "" then [] else ["start_date"])
      ++ ["end_date"]
      ++ (if (selectOn "day" [] none "").isSome then ["on"] else [])
      ++ ["transfer"] :=
  ⟨C8_top_level_key_order.1
      ⟨3, "week", "2017-05-15", "2018-05-15", ["monday"], none, "", "cust",
        1, "", "", ""⟩ _ rfl,
    C8_top_level_key_order.2
      ⟨3, "day", "", "", [], none, "", "rcp", 1, F64.finite 0⟩ _ rfl⟩

end OmiseSched

namespace OmiseSched

/-- C2 counterexample: a transfer request whose StartDate and EndDate are
both empty (so no date string can fail to parse) still fails to encode when
PercentageOfBalance is NaN, refuting the claim that a date parse failure is
the only failure mode and that an error occurs only if a non-empty date
fails to parse. -/
theorem C2_counterexample_nan :
    ¬ ((((⟨3, "day", "", "", [], none, "", "rcp", 0, F64.nan⟩ :
        CreateTransferSchedule).MarshalJSON).isOk = false) ↔
      ((¬ ("" : String) = "" ∧ parseDate "" = none) ∨
        (¬ ("" : String) = "" ∧ parseDate "" = none))) := by
  decide

/-- C2 amended: a charge-schedule encoding fails exactly when a non-empty
StartDate or EndDate string fails to parse as YYYY-MM-DD; a
transfer-schedule encoding fails exactly when that happens or when the
percentage-of-balance float is non-finite. On failure the Except carries
only the error, so no output bytes are produced. -/
theorem C2_error_iff_bad_date_or_nonfinite :
    (∀ r : CreateChargeSchedule, (r.MarshalJSON).isOk = false ↔
      ((¬ r.StartDate = "" ∧ parseDate r.StartDate = none) ∨
        (¬ r.EndDate = "" ∧ parseDate r.EndDate = none)))
    ∧ (∀ r : CreateTransferSchedule, (r.MarshalJSON).isOk = false ↔
      ((¬ r.StartDate = "" ∧ parseDate r.StartDate = none) ∨
        (¬ r.EndDate = "" ∧ parseDate r.EndDate = none) ∨
        r.PercentageOfBalance.isFinite = false)) := by
  constructor
  · intro r
    rw [chargeMarshal_isOk, ← parseStartDate_isOk_false_iff,
      ← parseEndDate_isOk_false_iff]
    cases hs : (parseStartDate r.StartDate).isOk <;>
      cases he : (parseEndDate r.EndDate).isOk <;> simp
  · intro r
    rw [transferMarshal_isOk, ← parseStartDate_isOk_false_iff,
      ← parseEndDate_isOk_false_iff]
    cases hs : (parseStartDate r.StartDate).isOk <;>
      cases he : (parseEndDate r.EndDate).isOk <;>
      cases hf : r.PercentageOfBalance.isFinite <;> simp

/-- C2 amended witness: an unparsable start date makes a charge encoding
fail, and a NaN percentage makes a transfer encoding fail. -/
theorem C2_error_iff_bad_date_or_nonfinite_witness :
    (((⟨3, "day", "not-a-date", "", [], none, "", "cust", 1, "", "",
        ""⟩ : CreateChargeSchedule).MarshalJSON).isOk = false)
    ∧ (((⟨3, "day", "", "", [], none, "", "rcp", 0, F64.nan⟩ :
        CreateTransferSchedule).MarshalJSON).isOk = false) :=
  ⟨(C2_error_iff_bad_date_or_nonfinite.1
      ⟨3, "day", "not-a-date", "", [], none, "", "cust", 1, "", "", ""⟩).mpr
      (Or.inl ⟨by decide, by rfl⟩),
    (C2_error_iff_bad_date_or_nonfinite.2
      ⟨3, "day", "", "", [], none, "", "rcp", 0, F64.nan⟩).mpr
      (Or.inr (Or.inr rfl))⟩

/-- C3 counterexample: a charge request with empty Customer and zero Amount
still emits both fields in the charge object, since neither carries
omitempty; this refutes the claim that an empty customer and a zero amount
never appear in the output. -/
theorem C3_counterexample_required_fields :
    actionObj "charge" (CreateChargeSchedule.MarshalJSON
        ⟨1, "day", "", "", [], none, "", "", 0, "", "", ""⟩) =
      some (Jv.obj [("customer", Jv.str ""), ("amount", Jv.int 0)]) := by
  rfl

/-- C3 amended: the action object omits exactly its omitempty-tagged fields
at their zero values: currency, card and description for a charge, amount
and percentage_of_balance for a transfer; customer and amount of a charge
and recipient of a transfer are always emitted, even at their zero
values. -/
theorem C3_action_omitempty_fields :
    (∀ (r : CreateChargeSchedule) (j : Jv), r.MarshalJSON = .ok j →
      (Jv.lookup "charge" j).map Jv.keys = some (["customer", "amount"]
        ++ (if r.Currency = "" then [] else ["currency"])
        ++ (if r.Card = "" then [] else ["card"])
        ++ (if r.Description = "" then [] else ["description"])))
    ∧ (∀ (r : CreateTransferSchedule) (j : Jv), r.MarshalJSON = .ok j →
      (Jv.lookup "transfer" j).map Jv.keys = some (["recipient"]
        ++ (if r.Amount = 0 then [] else ["amount"])
        ++ (if r.PercentageOfBalance = F64.finite 0 then []
          else ["percentage_of_balance"]))) := by
  constructor
  · intro r j h
    obtain ⟨sd, ed, _, _, hj⟩ := chargeMarshal_ok_shape r j h
    subst hj
    rw [paramJv_lookup_key _ _ _ _ _ _ _ (by decide) (by decide) (by decide)
      (by decide) (by decide)]
    simp [chargeJv_keys]
  · intro r j h
    obtain ⟨sd, ed, q, _, _, hq, hj⟩ := transferMarshal_ok_shape r j h
    subst hj
    rw [paramJv_lookup_key _ _ _ _ _ _ _ (by decide) (by decide) (by decide)
      (by decide) (by decide), hq]
    simp only [Option.map, F64.finite.injEq, Jv.keys]
    split_ifs <;> simp [Jv.keys]

/-- C3 amended witness: a charge request with all omitempty fields empty
and a transfer request with zero amount and non-zero percentage show the
stated key sets. -/
theorem C3_action_omitempty_fields_witness :
    (Jv.lookup "charge" (okOr (CreateChargeSchedule.MarshalJSON
        ⟨1, "day", "", "", [], none, "", "", 0, "", "", ""⟩))).map Jv.keys =
      some (["customer", "amount"]
        ++ (if ("" : String) = "" then [] else ["currency"])
        ++ (if ("" : String) = "" then [] else ["card"])
        ++ (if ("" : String) = "" then [] else ["description"]))
    ∧ (Jv.lookup "transfer" (okOr (CreateTransferSchedule.MarshalJSON
        ⟨1, "day", "", "", [], none, "", "rcp", 0,
          F64.finite (mkRat 5055 100)⟩))).map Jv.keys =
      some (["recipient"]
        ++ (if (0 : Int) = 0 then [] else ["amount"])
        ++ (if F64.finite (mkRat 5055 100) = F64.finite 0 then []
          else ["percentage_of_balance"])) :=
  ⟨C3_action_omitempty_fields.1
      ⟨1, "day", "", "", [], none, "", "", 0, "", "", ""⟩ _ rfl,
    C3_action_omitempty_fields.2
      ⟨1, "day", "", "", [], none, "", "rcp", 0,
        F64.finite (mkRat 5055 100)⟩ _ rfl⟩

/-- C4 counterexample: a week-period charge request with an empty weekday
list encodes with on bound to the empty object, which carries no weekdays
key; this refutes the claim that the on object always carries a weekdays
key, including for an empty list. -/
theorem C4_counterexample_empty_weekdays :
    actionObj "on" (CreateChargeSchedule.MarshalJSON
        ⟨3, "week", "", "", [], none, "", "cust", 1, "", "", ""⟩) =
      some (Jv.obj []) := by
  rfl

/-- C4 amended: with period week the on object is always attached; it
carries weekdays equal to the given list exactly when that list is
non-empty, and is the empty object when the list is empty (the weekdays
field carries omitempty and an empty list is dropped). -/
theorem C4_week_on_weekdays :
    (∀ (r : CreateChargeSchedule) (j : Jv), r.Period = "week" →
      r.MarshalJSON = .ok j →
      Jv.lookup "on" j = some (onJv r.Weekdays [] "")
      ∧ ((Jv.lookup "on" j).map Jv.keys =
          some (if r.Weekdays = [] then [] else ["weekdays"]))
      ∧ (¬ r.Weekdays = [] →
          (Jv.lookup "on" j).bind (Jv.lookup "weekdays") =
            some (Jv.arr (r.Weekdays.map Jv.str))))
    ∧ (∀ (r : CreateTransferSchedule) (j : Jv), r.Period = "week" →
      r.MarshalJSON = .ok j →
      Jv.lookup "on" j = some (onJv r.Weekdays [] "")
      ∧ ((Jv.lookup "on" j).map Jv.keys =
          some (if r.Weekdays = [] then [] else ["weekdays"]))
      ∧ (¬ r.Weekdays = [] →
          (Jv.lookup "on" j).bind (Jv.lookup "weekdays") =
            some (Jv.arr (r.Weekdays.map Jv.str)))) := by
  constructor
  · intro r j hp h
    obtain ⟨sd, ed, _, _, hj⟩ := chargeMarshal_ok_shape r j h
    subst hj
    rw [hp, selectOn_week]
    rw [paramJv_lookup_on _ _ _ _ _ _ _ (by decide)]
    refine ⟨rfl, ?_, ?_⟩
    · simp [onJv_keys]
    · intro hw
      simp only [Option.bind]
      exact onJv_weekdays_lookup _ hw
  · intro r j hp h
    obtain ⟨sd, ed, q, _, _, _, hj⟩ := transferMarshal_ok_shape r j h
    subst hj
    rw [hp, selectOn_week]
    rw [paramJv_lookup_on _ _ _ _ _ _ _ (by decide)]
    refine ⟨rfl, ?_, ?_⟩
    · simp [onJv_keys]
    · intro hw
      simp only [Option.bind]
      exact onJv_weekdays_lookup _ hw

/-- C4 amended witness: a week-period request with weekdays
[monday, saturday] and one with an empty list show the stated on shapes. -/
theorem C4_week_on_weekdays_witness :
    (Jv.lookup "on" (okOr (CreateChargeSchedule.MarshalJSON
        ⟨3, "week", "", "", ["monday", "saturday"], none, "", "cust", 1,
          "", "", ""⟩)) = some (onJv ["monday", "saturday"] [] "")
      ∧ ((Jv.lookup "on" (okOr (CreateChargeSchedule.MarshalJSON
          ⟨3, "week", "", "", ["monday", "saturday"], none, "", "cust", 1,
            "", "", ""⟩))).map Jv.keys =
          some (if (["monday", "saturday"] : List String) = [] then []
            else ["weekdays"]))
      ∧ (¬ (["monday", "saturday"] : List String) = [] →
          (Jv.lookup "on" (okOr (CreateChargeSchedule.MarshalJSON
            ⟨3, "week", "", "", ["monday", "saturday"], none, "", "cust", 1,
              "", "", ""⟩))).bind (Jv.lookup "weekdays") =
            some (Jv.arr ((["monday", "saturday"] : List String).map
              Jv.str))))
    ∧ (Jv.lookup "on" (okOr (CreateTransferSchedule.MarshalJSON
        ⟨3, "week", "", "", [], none, "", "rcp", 1, F64.finite 0⟩)) =
          some (onJv [] [] "")
      ∧ ((Jv.lookup "on" (okOr (CreateTransferSchedule.MarshalJSON
          ⟨3, "week", "", "", [], none, "", "rcp", 1,
            F64.finite 0⟩))).map Jv.keys =
          some (if ([] : List String) = [] then [] else ["weekdays"]))
      ∧ (¬ ([] : List String) = [] →
          (Jv.lookup "on" (okOr (CreateTransferSchedule.MarshalJSON
            ⟨3, "week", "", "", [], none, "", "rcp", 1,
              F64.finite 0⟩))).bind (Jv.lookup "weekdays") =
            some (Jv.arr (([] : List String).map Jv.str)))) :=
  ⟨C4_week_on_weekdays.1
      ⟨3, "week", "", "", ["monday", "saturday"], none, "", "cust", 1,
        "", "", ""⟩ _ rfl rfl,
    C4_week_on_weekdays.2
      ⟨3, "week", "", "", [], none, "", "rcp", 1, F64.finite 0⟩ _ rfl rfl⟩

/-- C7: encoding is deterministic; two MarshalJSON calls on equal request
values yield byte-identical output, key order included, since the rendered
byte string is a function of the request value. -/
theorem C7_deterministic_bytes :
    (∀ r₁ r₂ : CreateChargeSchedule, r₁ = r₂ →
      r₁.MarshalBytes = r₂.MarshalBytes)
    ∧ (∀ r₁ r₂ : CreateTransferSchedule, r₁ = r₂ →
      r₁.MarshalBytes = r₂.MarshalBytes) :=
  ⟨fun _ _ h => congrArg CreateChargeSchedule.MarshalBytes h,
    fun _ _ h => congrArg CreateTransferSchedule.MarshalBytes h⟩

/-- C7 witness: the second Go test-table request encodes to the same bytes
as itself on a repeated call. -/
theorem C7_deterministic_bytes_witness :
    CreateChargeSchedule.MarshalBytes
        ⟨3, "week", "2017-05-15", "2018-05-15", ["monday", "saturday"],
          none, "", "customer_id", 100000, "", "", ""⟩ =
      CreateChargeSchedule.MarshalBytes
        ⟨3, "week", "2017-05-15", "2018-05-15", ["monday", "saturday"],
          none, "", "customer_id", 100000, "", "", ""⟩
    ∧ CreateTransferSchedule.MarshalBytes
        ⟨3, "day", "", "", [], none, "", "recipient_id", 100000,
          F64.finite 0⟩ =
      CreateTransferSchedule.MarshalBytes
        ⟨3, "day", "", "", [], none, "", "recipient_id", 100000,
          F64.finite 0⟩ :=
  ⟨C7_deterministic_bytes.1
      ⟨3, "week", "2017-05-15", "2018-05-15", ["monday", "saturday"],
        none, "", "customer_id", 100000, "", "", ""⟩
      ⟨3, "week", "2017-05-15", "2018-05-15", ["monday", "saturday"],
        none, "", "customer_id", 100000, "", "", ""⟩ rfl,
    C7_deterministic_bytes.2
      ⟨3, "day", "", "", [], none, "", "recipient_id", 100000,
        F64.finite 0⟩
      ⟨3, "day", "", "", [], none, "", "recipient_id", 100000,
        F64.finite 0⟩ rfl⟩

/-- C9: the operation descriptors are fixed: both create operations use
POST /schedules with content type application/json and an allocated empty
query-value set; retrieve and destroy use GET and DELETE on
/schedules/{id} with no query values and no content type. -/
theorem C9_op_descriptors :
    (∀ r : CreateChargeSchedule, r.Op =
      ⟨Endpoint.api, "POST", "/schedules", some [], "application/json"⟩)
    ∧ (∀ r : CreateTransferSchedule, r.Op =
      ⟨Endpoint.api, "POST", "/schedules", some [], "application/json"⟩)
    ∧ (∀ r : RetrieveSchedule, r.Op =
      ⟨Endpoint.api, "GET", "/schedules/" ++ r.ScheduleID, none, ""⟩)
    ∧ (∀ r : DestroySchedule, r.Op =
      ⟨Endpoint.api, "DELETE", "/schedules/" ++ r.ScheduleID, none, ""⟩) :=
  ⟨fun _ => rfl, fun _ => rfl, fun _ => rfl, fun _ => rfl⟩

end OmiseSched
